import Mathlib

/-!
Shallow embedding of `mqtt_saver.py`: the rule-matching and action-execution
engine (rule table construction, dispatch, shell execution, OSD/dunst
notification).  External process execution is modelled by a `World` oracle
mapping a command line to the `(returncode, stdout, stderr)` the spawned
process would produce; every side effect (process spawn, log line,
subscription request) is recorded in an event trace.  Python exceptions are
modelled with `Except PyError`.
-/

/-- Log levels used by the `logging` calls in the source. -/
inductive LogLevel where
  | debug
  | info
  | warning
  | error
deriving DecidableEq, Repr

/-- Observable side effects of the program: spawning an external process,
emitting a log line, requesting an MQTT subscription. -/
inductive Event where
  | spawn (cmd_line : String)
  | log (lvl : LogLevel) (msg : String)
  | subscribe (topics : List (String × Nat))
deriving DecidableEq, Repr

/-- Result of one spawned process, as seen by `subprocess.Popen.communicate`:
`returncode` (possibly `None`), captured stdout, captured stderr. -/
structure ProcResult where
  returncode : Option Int
  stdout : String
  stderr : String
deriving DecidableEq, Repr

/-- The environment oracle: what each command line would produce if spawned. -/
abbrev World := String → ProcResult

/-- Python exceptions that can arise in the modelled code paths. -/
inductive PyError where
  | shellExec (err_msg : String)
  | notImplemented (msg : String)
  | valueError (msg : String)
  | indexError (msg : String)
deriving DecidableEq, Repr

instance {ε α : Type} [DecidableEq ε] [DecidableEq α] : DecidableEq (Except ε α) :=
  fun x y =>
    match x, y with
    | Except.ok a, Except.ok b => decidable_of_iff (a = b) (by simp)
    | Except.error a, Except.error b => decidable_of_iff (a = b) (by simp)
    | Except.ok _, Except.error _ => isFalse (by simp)
    | Except.error _, Except.ok _ => isFalse (by simp)

/-- Decimal digits of a natural number (fuel-based, fuel ≥ number of digits). -/
def natToCharsAux : Nat → Nat → List Char
  | 0, _ => []
  | fuel + 1, n =>
    if n < 10 then [Char.ofNat (48 + n)]
    else natToCharsAux fuel (n / 10) ++ [Char.ofNat (48 + n % 10)]

/-- Decimal string of a natural number, as Python `str` renders it. -/
def natToStr (n : Nat) : String :=
  String.mk (natToCharsAux (n + 1) n)

/-- Decimal string of an integer, as Python `str` renders it. -/
def intToStr : Int → String
  | Int.ofNat n => natToStr n
  | Int.negSucc n => "-" ++ natToStr (n + 1)

/-- The `ret` value computed by `exec_text_command`: `p.returncode` when it is
not `None`, otherwise the initial value `1`. -/
def pyRet (p : ProcResult) : Int :=
  match p.returncode with
  | some r => r
  | none => 1

/-- The message built by `ShellExecError.__init__`: the command line and exit
code, followed by stdout and stderr when nonempty (the same text is rebuilt
inline by `__parse_topic_command`). -/
def shellErrMsg (cmd_line : String) (ret : Int) (stdout stderr : String) : String :=
  let e1 := cmd_line ++ " returned " ++ intToStr ret
  let e2 := if stdout ≠ "" then e1 ++ "\n" ++ stdout else e1
  if stderr ≠ "" then e2 ++ "\n" ++ stderr else e2

/-- `exec_text_command(cmd_line, check)`: spawn the command, wait for it, and
either return `(ret, stdout, stderr)` or, when `check` holds and the exit code
is nonzero, raise `ShellExecError`. -/
def exec_text_command (w : World) (cmd_line : String) (check : Bool) :
    List Event × Except PyError (Int × String × String) :=
  let p := w cmd_line
  let ret := pyRet p
  if check = true ∧ ret ≠ 0 then
    ([Event.spawn cmd_line], Except.error (PyError.shellExec (shellErrMsg cmd_line ret p.stdout p.stderr)))
  else
    ([Event.spawn cmd_line], Except.ok (ret, p.stdout, p.stderr))

/-- Whitespace test matching Python `str.split()` separators for the outputs
handled here. -/
def isSpaceChar (c : Char) : Bool :=
  c = ' ' ∨ c = '\t' ∨ c = '\n' ∨ c = '\r'

/-- Split a character list at every occurrence of `sep` (Python
`str.split(sep)` for a one-character separator). -/
def splitOnCharAux (sep : Char) : List Char → List Char → List (List Char)
  | [], acc => [acc.reverse]
  | c :: rest, acc =>
    if c = sep then acc.reverse :: splitOnCharAux sep rest []
    else splitOnCharAux sep rest (c :: acc)

/-- Python `s.split(sep)` for a one-character separator `sep`. -/
def splitOnChar (sep : Char) (l : List Char) : List (List Char) :=
  splitOnCharAux sep l []

/-- Python `s.split()` (no argument): split on whitespace runs, dropping
empty fields. -/
def pySplitW (l : List Char) : List (List Char) :=
  (splitOnCharAux ' ' (l.map (fun c => if isSpaceChar c then ' ' else c)) []).filter
    (fun s => s ≠ [])

/-- Python `s.splitlines()` for newline-separated text: split on a newline,
with no empty final line when the text ends in a newline. -/
def pySplitlines (l : List Char) : List (List Char) :=
  if l = [] then []
  else
    let parts := splitOnChar '\n' l
    if parts.getLast? = some [] then parts.dropLast else parts

/-- Is `needle` a prefix of `hay`? -/
def isPrefixL : List Char → List Char → Bool
  | [], _ => true
  | _ :: _, [] => false
  | a :: as, b :: bs => a = b && isPrefixL as bs

/-- Python `needle in hay` substring test. -/
def containsL (needle : List Char) : List Char → Bool
  | [] => isPrefixL needle []
  | c :: rest => isPrefixL needle (c :: rest) || containsL needle rest

/-- Value of a nonempty run of decimal digits (`none` on a non-digit). -/
def digitsValAux : List Char → Nat → Option Nat
  | [], acc => some acc
  | c :: rest, acc =>
    if c.isDigit then digitsValAux rest (acc * 10 + (c.toNat - 48)) else none

/-- Python `int(s)`: optional surrounding whitespace, optional sign, decimal
digits; `none` models the `ValueError` raise. -/
def pyIntOfChars (l : List Char) : Option Int :=
  let t := ((l.dropWhile isSpaceChar).reverse.dropWhile isSpaceChar).reverse
  match t with
  | '-' :: rest =>
    if rest = [] then none
    else (digitsValAux rest 0).map (fun n => -(n : Int))
  | '+' :: rest =>
    if rest = [] then none
    else (digitsValAux rest 0).map Int.ofNat
  | _ =>
    if t = [] then none
    else (digitsValAux t 0).map Int.ofNat

/-- Parse the geometry field of a line already known to contain the xrandr
primary marker: `line.split()[3].split("+")[0]` split at `"x"` and converted
with `int` (index, unpack and conversion failures modelled as the
corresponding Python exceptions). -/
def parsePrimaryLine (line : List Char) : Except PyError (Int × Int) :=
  match (pySplitW line).get? 3 with
  | none => Except.error (PyError.indexError "list index out of range")
  | some s3 =>
    let geo_str := (splitOnChar '+' s3).headD []
    match splitOnChar 'x' geo_str with
    | [w_str, h_str] =>
      match pyIntOfChars w_str, pyIntOfChars h_str with
      | some wv, some hv => Except.ok (wv, hv)
      | _, _ => Except.error (PyError.valueError "invalid literal for int()")
    | _ => Except.error (PyError.valueError "values to unpack")

/-- The xrandr loop body of `OSD.__get_geometry`: skip lines without
`" primary "`; on the first line with it, parse and return its geometry. -/
def findPrimary : List (List Char) → Option (Except PyError (Int × Int))
  | [] => none
  | line :: rest =>
    if containsL " primary ".data line = false then findPrimary rest
    else some (parsePrimaryLine line)

/-- The xdpyinfo loop of `OSD.__get_geometry_dpy`: skip lines without
`"dimensions:"`; on the first line with it, parse `line.split()[1]` as
`WxH`; if no line matches, raise `NotImplementedError`. -/
def findDimensions : List (List Char) → Except PyError (Int × Int)
  | [] => Except.error (PyError.notImplemented "couldn't find desktop's geometry")
  | line :: rest =>
    if containsL "dimensions:".data line = false then findDimensions rest
    else
      match (pySplitW line).get? 1 with
      | none => Except.error (PyError.indexError "list index out of range")
      | some geo_str =>
        match splitOnChar 'x' geo_str with
        | [w_str, h_str] =>
          match pyIntOfChars w_str, pyIntOfChars h_str with
          | some wv, some hv => Except.ok (wv, hv)
          | _, _ => Except.error (PyError.valueError "invalid literal for int()")
        | _ => Except.error (PyError.valueError "values to unpack")

/-- `OSD.__get_geometry_dpy`: run `xdpyinfo` and scan its stdout for the
`dimensions:` line. -/
def OSD.get_geometry_dpy (w : World) : List Event × Except PyError (Int × Int) :=
  let (ee, er) := exec_text_command w "xdpyinfo" true
  match er with
  | Except.error e => (ee, Except.error e)
  | Except.ok (_, stdout, _) => (ee, findDimensions (pySplitlines stdout.data))

/-- `OSD.__get_geometry`: run `xrandr` and scan its stdout for a primary
display line, falling back to `xdpyinfo` when none is found. -/
def OSD.get_geometry (w : World) : List Event × Except PyError (Int × Int) :=
  let (ee, er) := exec_text_command w "xrandr" true
  match er with
  | Except.error e => (ee, Except.error e)
  | Except.ok (_, stdout, _) =>
    match findPrimary (pySplitlines stdout.data) with
    | some r => (ee, r)
    | none =>
      let (e2, r2) := OSD.get_geometry_dpy w
      (ee ++ e2, r2)

/-- `OSD.display_text`: look up the geometry, compute the overlay position
(the Python float arithmetic `int(height/2 - text_size/4)` and
`int(width/2 - text_width/4)` is the exact truncated rational), and run
`aosd_cat`. -/
def OSD.display_text (text_size : Int) (text_color : String) (w : World)
    (text : String) : List Event × Except PyError Unit :=
  let (ge, gr) := OSD.get_geometry w
  match gr with
  | Except.error e => (ge, Except.error e)
  | Except.ok (width, height) =>
    let text_width : Int := (text.length : Int) * text_size
    let y : Int := Int.tdiv (2 * height - text_size) 4
    let x : Int := Int.tdiv (2 * width - text_width) 4
    let cmd_line := "echo \"" ++ text ++ "\" | aosd_cat -x " ++ intToStr x ++
      " -y -" ++ intToStr y ++ " -w " ++ intToStr text_width ++
      " -R " ++ text_color ++ " -n " ++ intToStr text_size
    let (ee, er) := exec_text_command w cmd_line true
    match er with
    | Except.error e => (ge ++ ee, Except.error e)
    | Except.ok _ => (ge ++ ee, Except.ok ())

/-- `DunstNotify.display_text`: forward the text to `dunstify`. -/
def DunstNotify.display_text (w : World) (text : String) :
    List Event × Except PyError Unit :=
  let (ee, er) := exec_text_command w ("dunstify " ++ text) true
  match er with
  | Except.error e => (ee, Except.error e)
  | Except.ok _ => (ee, Except.ok ())

/-- The `MqttNotify` backend chosen at construction: the OSD variant with its
text size and color, or the dunst variant. -/
inductive Notify where
  | osd (text_size : Int) (text_color : String)
  | dunst
deriving DecidableEq, Repr

/-- `MqttNotify.display_text` dispatched over the chosen backend. -/
def Notify.display_text (n : Notify) (w : World) (text : String) :
    List Event × Except PyError Unit :=
  match n with
  | Notify.osd ts tc => OSD.display_text ts tc w text
  | Notify.dunst => DunstNotify.display_text w text

/-- The `MQTTTopic` dataclass: a configured rule. -/
structure MQTTTopic where
  topic : String
  payload : String
  command : Option String := none
  osd : Option String := none
deriving DecidableEq, Repr

/-- Python `dict` assignment `d[k] = v`: replace the value at an existing key
in place, else append the binding. -/
def dictInsert (m : List (String × MQTTTopic)) (k : String) (v : MQTTTopic) :
    List (String × MQTTTopic) :=
  match m with
  | [] => [(k, v)]
  | (k', v') :: rest =>
    if k' = k then (k', v) :: rest else (k', v') :: dictInsert rest k v

/-- Python `d[k]` / `k in d` lookup. -/
def dictLookup (m : List (String × MQTTTopic)) (k : String) : Option MQTTTopic :=
  match m with
  | [] => none
  | (k', v) :: rest => if k' = k then some v else dictLookup rest k

/-- The state of `MQTTCallbacks` after `__init__`. -/
structure MQTTCallbacks where
  verbose : Bool
  dry_run : Bool
  notify : Notify
  sub_topic_list : List (String × Nat)
  topics : List (String × MQTTTopic)
deriving DecidableEq, Repr

/-- `MQTTCallbacks.__init__`: choose the notification backend from the
`/notify` configuration value (default `osd`, unknown values raise
`NotImplementedError`), then fill `topics` and `sub_topic_list` in one pass
over the configured rule definitions. -/
def MQTTCallbacks.init (notify_type : String) (topicDefs : List MQTTTopic)
    (verbose dry_run : Bool) : Except PyError MQTTCallbacks :=
  match (if notify_type = "osd" then Except.ok (Notify.osd 90 "white")
         else if notify_type = "dunst" then Except.ok Notify.dunst
         else Except.error (PyError.notImplemented "")) with
  | Except.error e => Except.error e
  | Except.ok n =>
    let st := topicDefs.foldl
      (fun acc t => (dictInsert acc.1 t.topic t, acc.2 ++ [(t.topic, 0)]))
      ([], [])
    Except.ok { verbose := verbose, dry_run := dry_run, notify := n,
                topics := st.1, sub_topic_list := st.2 }

/-- `MQTTCallbacks.__parse_topic_command`: nothing without a command; log the
command; in dry-run mode stop there; otherwise run it with `check=False` and
log an error (command line, exit code, captured output) on a nonzero exit. -/
def MQTTCallbacks.parse_topic_command (cb : MQTTCallbacks) (w : World)
    (topic : MQTTTopic) : (List Event × Except PyError Unit) × MQTTCallbacks :=
  match topic.command with
  | none => (([], Except.ok ()), cb)
  | some cmd =>
    let lg := Event.log LogLevel.info ("executing \"" ++ cmd ++ "\"")
    if cb.dry_run = true then (([lg], Except.ok ()), cb)
    else
      let (ee, er) := exec_text_command w cmd false
      match er with
      | Except.error e => ((lg :: ee, Except.error e), cb)
      | Except.ok (ret, stdout, stderr) =>
        if ret ≠ 0 then
          ((lg :: ee ++ [Event.log LogLevel.error (shellErrMsg cmd ret stdout stderr)],
            Except.ok ()), cb)
        else ((lg :: ee, Except.ok ()), cb)

/-- `MQTTCallbacks.__parse_topic_osd`: nothing without a notification text;
log the text and hand it to the configured backend. -/
def MQTTCallbacks.parse_topic_osd (cb : MQTTCallbacks) (w : World)
    (topic : MQTTTopic) : (List Event × Except PyError Unit) × MQTTCallbacks :=
  match topic.osd with
  | none => (([], Except.ok ()), cb)
  | some osdText =>
    let lg := Event.log LogLevel.info ("displaying \"" ++ osdText ++ "\"")
    let (ee, er) := cb.notify.display_text w osdText
    ((lg :: ee, er), cb)

/-- The `except ShellExecError` clause of `__parse_topic`: a `ShellExecError`
escaping the body is logged and absorbed; any other exception propagates. -/
def catchShell (x : List Event × Except PyError Unit) :
    List Event × Except PyError Unit :=
  match x.2 with
  | Except.error (PyError.shellExec m) =>
    (x.1 ++ [Event.log LogLevel.error m], Except.ok ())
  | _ => x

/-- `MQTTCallbacks.__parse_topic`: inside a try block, run the command part
when a command is configured, then the notification part when a text is
configured; `ShellExecError` is caught and logged. -/
def MQTTCallbacks.parse_topic (cb : MQTTCallbacks) (w : World)
    (topic : MQTTTopic) : (List Event × Except PyError Unit) × MQTTCallbacks :=
  let step1 := if topic.command.isSome then cb.parse_topic_command w topic
               else (([], Except.ok ()), cb)
  match step1.1.2 with
  | Except.error e => (catchShell (step1.1.1, Except.error e), step1.2)
  | Except.ok _ =>
    let step2 := if topic.osd.isSome then (step1.2).parse_topic_osd w topic
                 else (([], Except.ok ()), step1.2)
    (catchShell (step1.1.1 ++ step2.1.1, step2.1.2), step2.2)

/-- `MQTTCallbacks.on_message`: decode the payload, look the topic up; log a
warning when the topic is unknown or the payload differs from the configured
one, otherwise run the rule. -/
def MQTTCallbacks.on_message (cb : MQTTCallbacks) (w : World)
    (topic payload : String) : (List Event × Except PyError Unit) × MQTTCallbacks :=
  let dbg := Event.log LogLevel.debug (topic ++ " -> " ++ payload)
  match dictLookup cb.topics topic with
  | none =>
    (([dbg, Event.log LogLevel.warning ("ignoring " ++ topic)], Except.ok ()), cb)
  | some entry =>
    if payload = entry.payload then
      let r := cb.parse_topic w entry
      ((dbg :: r.1.1, r.1.2), r.2)
    else
      (([dbg, Event.log LogLevel.warning
          ("payload not handled. payload=\"" ++ payload ++ "\"")], Except.ok ()), cb)

/-- `MQTTCallbacks.on_connect`: log the reason code; on success (reason 0)
with a nonempty subscription list, request subscription to the full list. -/
def MQTTCallbacks.on_connect (cb : MQTTCallbacks) (reason_code : Int) :
    List Event × MQTTCallbacks :=
  let lg := Event.log LogLevel.info ("connected. reason=" ++ intToStr reason_code)
  if 0 = reason_code ∧ cb.sub_topic_list.length > 0 then
    ([lg, Event.subscribe cb.sub_topic_list], cb)
  else ([lg], cb)

/-- The external processes recorded in an event trace, in order. -/
def spawns (evs : List Event) : List String :=
  evs.filterMap (fun e => match e with | Event.spawn c => some c | _ => none)

/-- The subscription requests recorded in an event trace, in order. -/
def subscribeReqs (evs : List Event) : List (List (String × Nat)) :=
  evs.filterMap (fun e => match e with | Event.subscribe l => some l | _ => none)

/-- The process spawned by a rule's command action: exactly the configured
command line, when one is configured. -/
def commandSpawns (t : MQTTTopic) : List String :=
  match t.command with
  | none => []
  | some c => [c]

/-- The processes a rule's notification action spawns under the configured
backend, when a notification text is configured. -/
def notificationSpawns (cb : MQTTCallbacks) (w : World) (t : MQTTTopic) :
    List String :=
  match t.osd with
  | none => []
  | some s => spawns (cb.notify.display_text w s).1

/-! ### Concrete scenarios used by the counterexample and witness theorems -/

/-- A world whose `xrandr` output has no primary display line and whose
`xdpyinfo` output has no dimensions line, both commands exiting 0; every
other command exits 0 with empty output. -/
def geoFailWorld : World := fun cmd =>
  if cmd = "xrandr" then
    { returncode := some 0, stdout := "Screen 0: minimum\n", stderr := "" }
  else if cmd = "xdpyinfo" then
    { returncode := some 0, stdout := "name of display:   :0\n", stderr := "" }
  else { returncode := some 0, stdout := "", stderr := "" }

/-- The spec's example rule with only a notification action. -/
def alertOsdRule : MQTTTopic :=
  { topic := "/alert", payload := "fire", command := none, osd := some "FIRE!" }

/-- A dispatcher with the OSD backend and the single rule `alertOsdRule`. -/
def osdAlertCallbacks : MQTTCallbacks :=
  { verbose := false, dry_run := false, notify := Notify.osd 90 "white",
    sub_topic_list := [("/alert", 0)], topics := dictInsert [] "/alert" alertOsdRule }

/-- A world whose `xrandr` output reports a primary display of 1920x1080;
every other command exits 0 with empty output. -/
def primaryWorld : World := fun cmd =>
  if cmd = "xrandr" then
    { returncode := some 0, stdout := "HDMI-1 connected primary 1920x1080+0+0\n",
      stderr := "" }
  else { returncode := some 0, stdout := "", stderr := "" }

/-- A rule with both a command action and a notification action. -/
def alertFullRule : MQTTTopic :=
  { topic := "/alert", payload := "fire", command := some "xset dpms force off",
    osd := some "FIRE!" }

/-- A dispatcher in dry-run mode with the OSD backend and the single rule
`alertFullRule`. -/
def dryRunCallbacks : MQTTCallbacks :=
  { verbose := false, dry_run := true, notify := Notify.osd 90 "white",
    sub_topic_list := [("/alert", 0)], topics := dictInsert [] "/alert" alertFullRule }

/-- A world in which every command exits 0 with empty output. -/
def okWorld : World := fun _ => { returncode := some 0, stdout := "", stderr := "" }

/-- The spec's example rule with only a command action. -/
def xsetRule : MQTTTopic :=
  { topic := "/motion/office", payload := "away",
    command := some "xset dpms force off", osd := none }

/-- A dispatcher with the dunst backend and the single rule `xsetRule`. -/
def motionCallbacks : MQTTCallbacks :=
  { verbose := false, dry_run := false, notify := Notify.dunst,
    sub_topic_list := [("/motion/office", 0)],
    topics := dictInsert [] "/motion/office" xsetRule }

/-- A world in which the command `bad` exits 1 with captured output and every
other command exits 0. -/
def failWorld : World := fun cmd =>
  if cmd = "bad" then { returncode := some 1, stdout := "out", stderr := "err" }
  else { returncode := some 0, stdout := "", stderr := "" }

/-- A rule whose command fails under `failWorld` and which also has a
notification action. -/
def failCmdRule : MQTTTopic :=
  { topic := "/t", payload := "p", command := some "bad", osd := some "N" }

/-- A dispatcher with the dunst backend and the single rule `failCmdRule`. -/
def dunstCallbacks : MQTTCallbacks :=
  { verbose := false, dry_run := false, notify := Notify.dunst,
    sub_topic_list := [("/t", 0)], topics := dictInsert [] "/t" failCmdRule }

/-- A dispatcher with an empty rule table. -/
def emptyCallbacks : MQTTCallbacks :=
  { verbose := false, dry_run := false, notify := Notify.dunst,
    sub_topic_list := [], topics := [] }

/-- A world in which every command exits 1 with stdout `boom`. -/
def failingWorld : World := fun _ =>
  { returncode := some 1, stdout := "boom", stderr := "" }

/-- First definition of a duplicated topic. -/
def ruleA : MQTTTopic := { topic := "/dup", payload := "a", command := none, osd := none }

/-- Second (last-winning) definition of the same topic. -/
def ruleB : MQTTTopic := { topic := "/dup", payload := "b", command := none, osd := none }

/-- A configuration that defines the topic `/dup` twice. -/
def dupDefs : List MQTTTopic := [ruleA, ruleB]

/-- The dispatcher built from `dupDefs`: one subscription entry per
definition, one table entry per distinct topic. -/
def dupCallbacks : MQTTCallbacks :=
  { verbose := false, dry_run := false, notify := Notify.osd 90 "white",
    sub_topic_list := [("/dup", 0), ("/dup", 0)], topics := [("/dup", ruleB)] }

/-- A two-rule configuration used for the connect/subscription witnesses. -/
def subDefs : List MQTTTopic := [xsetRule, alertOsdRule]

/-- The dispatcher built from `subDefs`. -/
def subCallbacks : MQTTCallbacks :=
  { verbose := false, dry_run := false, notify := Notify.dunst,
    sub_topic_list := [("/motion/office", 0), ("/alert", 0)],
    topics := [("/motion/office", xsetRule), ("/alert", alertOsdRule)] }


/-- `exec_text_command` with `check=False` never raises: it returns the exit
code and captured output unconditionally. -/
lemma exec_check_false (w : World) (cmd : String) :
    exec_text_command w cmd false =
      ([Event.spawn cmd], Except.ok (pyRet (w cmd), (w cmd).stdout, (w cmd).stderr)) := by
  simp [exec_text_command]

lemma spawns_append (a b : List Event) : spawns (a ++ b) = spawns a ++ spawns b := by
  simp [spawns]

lemma spawns_log (lvl : LogLevel) (m : String) (rest : List Event) :
    spawns (Event.log lvl m :: rest) = spawns rest := by
  simp [spawns]

/-- The command phase never raises. -/
lemma parse_topic_command_ok (cb : MQTTCallbacks) (w : World) (t : MQTTTopic) :
    (cb.parse_topic_command w t).1.2 = Except.ok () := by
  unfold MQTTCallbacks.parse_topic_command
  cases t.command with
  | none => rfl
  | some cmd =>
    by_cases hd : cb.dry_run = true
    · simp [hd]
    · simp [hd, exec_check_false]
      split <;> rfl

/-- The command phase does not change the callback state. -/
lemma parse_topic_command_state (cb : MQTTCallbacks) (w : World) (t : MQTTTopic) :
    (cb.parse_topic_command w t).2 = cb := by
  unfold MQTTCallbacks.parse_topic_command
  cases t.command with
  | none => rfl
  | some cmd =>
    by_cases hd : cb.dry_run = true
    · simp [hd]
    · simp [hd, exec_check_false]
      split <;> rfl

/-- The notification phase does not change the callback state. -/
lemma parse_topic_osd_state (cb : MQTTCallbacks) (w : World) (t : MQTTTopic) :
    (cb.parse_topic_osd w t).2 = cb := by
  unfold MQTTCallbacks.parse_topic_osd
  cases t.osd with
  | none => rfl
  | some s => rfl

/-- `__parse_topic` runs the command phase, then the notification phase, and
applies the `ShellExecError` catch to the combined outcome. -/
lemma parse_topic_eq (cb : MQTTCallbacks) (w : World) (t : MQTTTopic) :
    cb.parse_topic w t =
      (catchShell ((cb.parse_topic_command w t).1.1 ++ (cb.parse_topic_osd w t).1.1,
                   (cb.parse_topic_osd w t).1.2), cb) := by
  unfold MQTTCallbacks.parse_topic
  cases hc : t.command with
  | none =>
    simp [hc, MQTTCallbacks.parse_topic_command]
    cases ho : t.osd with
    | none => simp [ho, MQTTCallbacks.parse_topic_osd]
    | some s => simp [ho, parse_topic_osd_state]
  | some cmd =>
    have h1 := parse_topic_command_ok cb w t
    have h2 := parse_topic_command_state cb w t
    simp [hc, Option.isSome] at h1 h2 ⊢
    rw [h1]
    cases ho : t.osd with
    | none => simp [ho, MQTTCallbacks.parse_topic_osd, h2]
    | some s => simp [ho, h2, parse_topic_osd_state]

/-- `__parse_topic` does not change the callback state. -/
lemma parse_topic_state (cb : MQTTCallbacks) (w : World) (t : MQTTTopic) :
    (cb.parse_topic w t).2 = cb := by
  rw [parse_topic_eq]

/-- `on_message` does not change the callback state: the rule table, the
subscription list and the backend are read, never written. -/
lemma on_message_state (cb : MQTTCallbacks) (w : World) (topic payload : String) :
    (cb.on_message w topic payload).2 = cb := by
  unfold MQTTCallbacks.on_message
  cases dictLookup cb.topics topic with
  | none => rfl
  | some entry =>
    by_cases hp : payload = entry.payload
    · simp [hp, parse_topic_state]
    · simp [hp]

/-- The catch clause appends at most a log line: it spawns nothing. -/
lemma catchShell_spawns (x : List Event × Except PyError Unit) :
    spawns (catchShell x).1 = spawns x.1 := by
  unfold catchShell
  cases hr : x.2 with
  | ok a => simp
  | error e => cases e <;> simp [spawns_append, spawns]

/-- The catch clause's outcome depends only on the incoming outcome. -/
lemma catchShell_snd (a b : List Event) (r : Except PyError Unit) :
    (catchShell (a, r)).2 = (catchShell (b, r)).2 := by
  unfold catchShell
  cases r with
  | ok v => rfl
  | error e => cases e <;> rfl

/-- In normal (non dry-run) mode the command phase spawns exactly the
configured command line. -/
lemma parse_topic_command_spawns (cb : MQTTCallbacks) (w : World) (t : MQTTTopic)
    (hd : cb.dry_run = false) :
    spawns (cb.parse_topic_command w t).1.1 = commandSpawns t := by
  unfold MQTTCallbacks.parse_topic_command commandSpawns
  cases t.command with
  | none => simp [spawns]
  | some cmd =>
    simp [hd, exec_check_false]
    split <;> simp [spawns]

/-- The notification phase spawns exactly what the configured backend spawns
for the configured text. -/
lemma parse_topic_osd_spawns (cb : MQTTCallbacks) (w : World) (t : MQTTTopic) :
    spawns (cb.parse_topic_osd w t).1.1 = notificationSpawns cb w t := by
  unfold MQTTCallbacks.parse_topic_osd notificationSpawns
  cases t.osd with
  | none => simp [spawns]
  | some s => simp [spawns_log]

/-- Dispatch of a matching event reduces to the debug log followed by
`__parse_topic` of the matched rule. -/
lemma on_message_match (cb : MQTTCallbacks) (w : World) (t : MQTTTopic)
    (h : dictLookup cb.topics t.topic = some t) :
    cb.on_message w t.topic t.payload =
      ((Event.log LogLevel.debug (t.topic ++ " -> " ++ t.payload) ::
          (cb.parse_topic w t).1.1, (cb.parse_topic w t).1.2),
       (cb.parse_topic w t).2) := by
  unfold MQTTCallbacks.on_message
  simp [h]

/-- Event list of a failing command in normal mode: the command log, the
spawn, and the error log carrying command line, exit code and output. -/
lemma parse_topic_command_fail_events (cb : MQTTCallbacks) (w : World)
    (t : MQTTTopic) (c : String) (hd : cb.dry_run = false)
    (hc : t.command = some c) (hret : pyRet (w c) ≠ 0) :
    (cb.parse_topic_command w t).1.1 =
      [Event.log LogLevel.info ("executing \"" ++ c ++ "\""),
       Event.spawn c,
       Event.log LogLevel.error
         (shellErrMsg c (pyRet (w c)) (w c).stdout (w c).stderr)] := by
  unfold MQTTCallbacks.parse_topic_command
  simp [hc, hd, exec_check_false, hret]

/-- Whatever was in the try body's trace survives the catch clause. -/
lemma mem_catchShell (a : Event) (x : List Event × Except PyError Unit)
    (h : a ∈ x.1) : a ∈ (catchShell x).1 := by
  unfold catchShell
  cases hr : x.2 with
  | ok v => simpa
  | error e => cases e <;> simp [h]

/-- The notification phase's trace begins with the `displaying` log line. -/
lemma parse_topic_osd_head (cb : MQTTCallbacks) (w : World) (t : MQTTTopic)
    (s : String) (ho : t.osd = some s) :
    Event.log LogLevel.info ("displaying \"" ++ s ++ "\"") ∈
      (cb.parse_topic_osd w t).1.1 := by
  unfold MQTTCallbacks.parse_topic_osd
  simp [ho]

/-- The outcome of a matched dispatch is the caught outcome of the
notification phase alone: the command phase cannot influence it. -/
lemma on_message_result (cb : MQTTCallbacks) (w : World) (t : MQTTTopic)
    (h : dictLookup cb.topics t.topic = some t) :
    (cb.on_message w t.topic t.payload).1.2 =
      (catchShell (cb.parse_topic_osd w t).1).2 := by
  rw [on_message_match cb w t h, parse_topic_eq]
  exact catchShell_snd _ _ _
/-- Looking up after a `dict` assignment: the assigned key maps to the new
value, every other key is unchanged. -/
lemma dictLookup_insert (m : List (String × MQTTTopic)) (k k' : String)
    (v : MQTTTopic) :
    dictLookup (dictInsert m k v) k' =
      if k = k' then some v else dictLookup m k' := by
  induction m with
  | nil => simp [dictInsert, dictLookup]
  | cons p rest ih =>
    obtain ⟨k0, v0⟩ := p
    by_cases h0 : k0 = k
    · subst h0
      by_cases h1 : k0 = k'
      · simp [dictInsert, dictLookup, h1]
      · simp [dictInsert, dictLookup, h1]
    · by_cases h1 : k0 = k'
      · have h2 : ¬ k = k' := fun he => h0 (he ▸ h1)
        have h3 : ¬ k' = k := fun he => h2 he.symm
        simp [dictInsert, dictLookup, h0, h1, h2, h3]
      · simp [dictInsert, dictLookup, h0, h1, ih]

/-- The rule-table loop resolves a topic to the last definition with that
topic, falling back to the initial table. -/
lemma lookup_build (defs : List MQTTTopic) (m : List (String × MQTTTopic))
    (topic : String) :
    dictLookup (defs.foldl (fun m t => dictInsert m t.topic t) m) topic =
      match List.find? (fun t => t.topic == topic) defs.reverse with
      | some t => some t
      | none => dictLookup m topic := by
  induction defs generalizing m with
  | nil => simp
  | cons d ds ih =>
    rw [List.foldl_cons, ih, List.reverse_cons, List.find?_append]
    cases hf : List.find? (fun t => t.topic == topic) ds.reverse with
    | some t => simp [Option.orElse]
    | none =>
      simp only [Option.orElse, dictLookup_insert]
      by_cases h1 : d.topic = topic
      · simp [h1]
      · have hb : (d.topic == topic) = false := beq_eq_false_iff_ne.mpr h1
        simp [hb]
        exact fun he => absurd he h1

/-- The single `__init__` loop is the rule-table fold paired with the
subscription-list map. -/
lemma foldPair (defs : List MQTTTopic) (m : List (String × MQTTTopic))
    (s : List (String × Nat)) :
    defs.foldl (fun acc t => (dictInsert acc.1 t.topic t, acc.2 ++ [(t.topic, 0)])) (m, s) =
      (defs.foldl (fun m t => dictInsert m t.topic t) m,
       s ++ defs.map (fun t => (t.topic, 0))) := by
  induction defs generalizing m s with
  | nil => simp
  | cons d ds ih => simp [List.foldl_cons, ih]

/-- Components of a successfully constructed `MQTTCallbacks`. -/
lemma init_components (nt : String) (defs : List MQTTTopic) (v d : Bool)
    (cb : MQTTCallbacks) (h : MQTTCallbacks.init nt defs v d = Except.ok cb) :
    cb.topics = defs.foldl (fun m t => dictInsert m t.topic t) [] ∧
    cb.sub_topic_list = defs.map (fun t => (t.topic, 0)) ∧
    cb.dry_run = d := by
  unfold MQTTCallbacks.init at h
  by_cases h1 : nt = "osd"
  · rw [if_pos h1] at h
    simp only [foldPair, List.nil_append] at h
    injection h with h2
    subst h2
    exact ⟨rfl, rfl, rfl⟩
  · rw [if_neg h1] at h
    by_cases h2 : nt = "dunst"
    · rw [if_pos h2] at h
      simp only [foldPair, List.nil_append] at h
      injection h with h3
      subst h3
      exact ⟨rfl, rfl, rfl⟩
    · rw [if_neg h2] at h
      exact absurd h (by simp)

/-- Claim C1: a geometry-lookup failure inside the OSD notification (no
primary display line in the xrandr output, no dimensions line in the
xdpyinfo output) is NOT contained: `__parse_topic` catches only
`ShellExecError`, so the `NotImplementedError` escapes `on_message` with no
failure log, aborting the dispatch.  This theorem evaluates the code at the
failing input. -/
theorem C1_geometry_failure_escapes_dispatch :
    (osdAlertCallbacks.on_message geoFailWorld "/alert" "fire").1 =
      ([Event.log LogLevel.debug "/alert -> fire",
        Event.log LogLevel.info "displaying \"FIRE!\"",
        Event.spawn "xrandr",
        Event.spawn "xdpyinfo"],
       Except.error (PyError.notImplemented "couldn't find desktop's geometry")) := by
  decide

/-- Claim C2: with dry-run enabled, dispatching a matching event still spawns
external processes for the notification action (only the command action is
suppressed, and its command line is logged).  This theorem evaluates the code
at the failing input: `xrandr` and `aosd_cat` are spawned. -/
theorem C2_dry_run_spawns_for_notification :
    (dryRunCallbacks.on_message primaryWorld "/alert" "fire").1 =
      ([Event.log LogLevel.debug "/alert -> fire",
        Event.log LogLevel.info "executing \"xset dpms force off\"",
        Event.log LogLevel.info "displaying \"FIRE!\"",
        Event.spawn "xrandr",
        Event.spawn "echo \"FIRE!\" | aosd_cat -x 847 -y -517 -w 450 -R white -n 90"],
       Except.ok ()) := by
  decide

/-- Claim C3: dispatching `(R.topic, R.expectedPayload)` for a rule `R` of
the table (in normal, non dry-run mode) spawns exactly `R`'s configured
command (when present) followed by exactly the processes of `R`'s configured
notification (when present), and nothing else. -/
theorem C3_matched_dispatch_runs_exactly_rule_actions_in_order
    (cb : MQTTCallbacks) (w : World) (t : MQTTTopic)
    (h : dictLookup cb.topics t.topic = some t) (hd : cb.dry_run = false) :
    spawns (cb.on_message w t.topic t.payload).1.1 =
      commandSpawns t ++ notificationSpawns cb w t := by
  rw [on_message_match cb w t h, parse_topic_eq]
  simp only [spawns_log, catchShell_spawns, spawns_append,
    parse_topic_command_spawns cb w t hd, parse_topic_osd_spawns]

theorem C3_witness :
    dictLookup motionCallbacks.topics xsetRule.topic = some xsetRule ∧
    motionCallbacks.dry_run = false ∧
    spawns (motionCallbacks.on_message okWorld xsetRule.topic xsetRule.payload).1.1 =
      commandSpawns xsetRule ++ notificationSpawns motionCallbacks okWorld xsetRule :=
  ⟨by decide, rfl,
   C3_matched_dispatch_runs_exactly_rule_actions_in_order motionCallbacks okWorld
     xsetRule (by decide) rfl⟩

/-- Claim C4: in a rule with both actions, a command exiting nonzero is
recovered locally: the failure is logged with the command line, exit code and
captured output; the notification still runs (its log line appears and its
processes are spawned after the command); the dispatch outcome is exactly the
notification phase's caught outcome, independent of the command; and the
callback state is unchanged, so the next message is processed identically. -/
theorem C4_command_failure_recovered_locally
    (cb : MQTTCallbacks) (w : World) (t : MQTTTopic) (c s : String)
    (hd : cb.dry_run = false) (hc : t.command = some c) (ho : t.osd = some s)
    (hm : dictLookup cb.topics t.topic = some t) (hret : pyRet (w c) ≠ 0) :
    Event.log LogLevel.error (shellErrMsg c (pyRet (w c)) (w c).stdout (w c).stderr)
        ∈ (cb.on_message w t.topic t.payload).1.1
    ∧ Event.log LogLevel.info ("displaying \"" ++ s ++ "\"")
        ∈ (cb.on_message w t.topic t.payload).1.1
    ∧ spawns (cb.on_message w t.topic t.payload).1.1 = c :: notificationSpawns cb w t
    ∧ (cb.on_message w t.topic t.payload).1.2 = (catchShell (cb.parse_topic_osd w t).1).2
    ∧ (cb.on_message w t.topic t.payload).2 = cb := by
  refine ⟨?_, ?_, ?_, on_message_result cb w t hm, on_message_state cb w t.topic t.payload⟩
  · rw [on_message_match cb w t hm, parse_topic_eq]
    refine List.mem_cons_of_mem _ (mem_catchShell _ _ ?_)
    refine List.mem_append_left _ ?_
    rw [parse_topic_command_fail_events cb w t c hd hc hret]
    simp
  · rw [on_message_match cb w t hm, parse_topic_eq]
    refine List.mem_cons_of_mem _ (mem_catchShell _ _ ?_)
    exact List.mem_append_right _ (parse_topic_osd_head cb w t s ho)
  · rw [on_message_match cb w t hm, parse_topic_eq]
    simp only [spawns_log, catchShell_spawns, spawns_append,
      parse_topic_command_spawns cb w t hd, parse_topic_osd_spawns]
    simp [commandSpawns, hc]

theorem C4_witness :
    dunstCallbacks.dry_run = false ∧
    failCmdRule.command = some "bad" ∧
    failCmdRule.osd = some "N" ∧
    dictLookup dunstCallbacks.topics failCmdRule.topic = some failCmdRule ∧
    pyRet (failWorld "bad") ≠ 0 ∧
    (Event.log LogLevel.error
        (shellErrMsg "bad" (pyRet (failWorld "bad")) (failWorld "bad").stdout
          (failWorld "bad").stderr)
      ∈ (dunstCallbacks.on_message failWorld failCmdRule.topic failCmdRule.payload).1.1
    ∧ Event.log LogLevel.info "displaying \"N\""
      ∈ (dunstCallbacks.on_message failWorld failCmdRule.topic failCmdRule.payload).1.1
    ∧ spawns (dunstCallbacks.on_message failWorld failCmdRule.topic failCmdRule.payload).1.1 =
        "bad" :: notificationSpawns dunstCallbacks failWorld failCmdRule
    ∧ (dunstCallbacks.on_message failWorld failCmdRule.topic failCmdRule.payload).1.2 =
        (catchShell (dunstCallbacks.parse_topic_osd failWorld failCmdRule).1).2
    ∧ (dunstCallbacks.on_message failWorld failCmdRule.topic failCmdRule.payload).2 =
        dunstCallbacks) :=
  ⟨rfl, rfl, rfl, by decide, by decide,
   C4_command_failure_recovered_locally dunstCallbacks failWorld failCmdRule "bad" "N"
     rfl rfl rfl (by decide) (by decide)⟩

/-- Claim C5: an event whose topic is not in the rule table, or whose payload
differs from the matched rule's expected payload, produces no action at all:
the dispatch emits exactly the debug line plus one warning and returns
normally. -/
theorem C5_unmatched_event_no_action_warning_logged
    (cb : MQTTCallbacks) (w : World) (topic payload : String)
    (h : ∀ e, dictLookup cb.topics topic = some e → payload ≠ e.payload) :
    (cb.on_message w topic payload).1 =
        ([Event.log LogLevel.debug (topic ++ " -> " ++ payload),
          Event.log LogLevel.warning ("ignoring " ++ topic)], Except.ok ())
    ∨ (cb.on_message w topic payload).1 =
        ([Event.log LogLevel.debug (topic ++ " -> " ++ payload),
          Event.log LogLevel.warning
            ("payload not handled. payload=\"" ++ payload ++ "\"")],
         Except.ok ()) := by
  unfold MQTTCallbacks.on_message
  cases hl : dictLookup cb.topics topic with
  | none => left; simp
  | some e =>
    right
    simp [h e hl]

theorem C5_witness :
    (∀ e, dictLookup emptyCallbacks.topics "/x" = some e → "y" ≠ e.payload) ∧
    ((emptyCallbacks.on_message okWorld "/x" "y").1 =
        ([Event.log LogLevel.debug "/x -> y",
          Event.log LogLevel.warning "ignoring /x"], Except.ok ())
    ∨ (emptyCallbacks.on_message okWorld "/x" "y").1 =
        ([Event.log LogLevel.debug "/x -> y",
          Event.log LogLevel.warning "payload not handled. payload=\"y\""],
         Except.ok ())) :=
  have h : ∀ e, dictLookup emptyCallbacks.topics "/x" = some e → "y" ≠ e.payload := by
    intro e he
    simp [emptyCallbacks, dictLookup] at he
  ⟨h, C5_unmatched_event_no_action_warning_logged emptyCallbacks okWorld "/x" "y" h⟩

/-- Claim C6 counterexample: with `check` left at its default `True`, a
nonzero exit code makes `exec_text_command` raise `ShellExecError` — it does
throw merely because the exit code is nonzero. -/
theorem C6_default_check_raises_on_nonzero_exit :
    (exec_text_command failingWorld "false" true).2 =
      Except.error (PyError.shellExec "false returned 1\nboom") := by
  decide

/-- Claim C6 (amended): `exec_text_command` runs the command synchronously
and, when the caller passes `check=False` (as the dispatcher's command action
does), returns `(exit code, stdout, stderr)` without ever raising for a
nonzero exit; with `check=True` (the default) it returns the triple on exit
code 0 and raises `ShellExecError` on a nonzero exit — the caller decides via
the `check` flag. -/
theorem C6_exec_contract (w : World) (cmd : String) :
    exec_text_command w cmd false =
      ([Event.spawn cmd], Except.ok (pyRet (w cmd), (w cmd).stdout, (w cmd).stderr))
    ∧ (pyRet (w cmd) = 0 →
        exec_text_command w cmd true =
          ([Event.spawn cmd], Except.ok (0, (w cmd).stdout, (w cmd).stderr)))
    ∧ (pyRet (w cmd) ≠ 0 →
        exec_text_command w cmd true =
          ([Event.spawn cmd],
           Except.error (PyError.shellExec
             (shellErrMsg cmd (pyRet (w cmd)) (w cmd).stdout (w cmd).stderr)))) := by
  refine ⟨exec_check_false w cmd, ?_, ?_⟩
  · intro h
    simp [exec_text_command, h]
  · intro h
    simp [exec_text_command, h]

theorem C6_witness :
    pyRet (failingWorld "false") ≠ 0 ∧
    pyRet (okWorld "true") = 0 ∧
    exec_text_command failingWorld "false" true =
      ([Event.spawn "false"],
       Except.error (PyError.shellExec
         (shellErrMsg "false" (pyRet (failingWorld "false"))
           (failingWorld "false").stdout (failingWorld "false").stderr))) ∧
    exec_text_command okWorld "true" true =
      ([Event.spawn "true"],
       Except.ok (0, (okWorld "true").stdout, (okWorld "true").stderr)) :=
  ⟨by decide, by decide,
   (C6_exec_contract failingWorld "false").2.2 (by decide),
   (C6_exec_contract okWorld "true").2.1 (by decide)⟩

/-- Claim C7: after construction, looking a topic up in the rule table
returns the last definition with that topic (later definitions overwrite
earlier ones at the same key). -/
theorem C7_last_definition_wins
    (nt : String) (defs : List MQTTTopic) (v d : Bool) (cb : MQTTCallbacks)
    (h : MQTTCallbacks.init nt defs v d = Except.ok cb) (topic : String) :
    dictLookup cb.topics topic =
      List.find? (fun t => t.topic == topic) defs.reverse := by
  obtain ⟨ht, -, -⟩ := init_components nt defs v d cb h
  rw [ht, lookup_build]
  cases hf : List.find? (fun t => t.topic == topic) defs.reverse <;>
    simp [dictLookup]

theorem C7_witness :
    MQTTCallbacks.init "osd" dupDefs false false = Except.ok dupCallbacks ∧
    dictLookup dupCallbacks.topics "/dup" =
      List.find? (fun t => t.topic == "/dup") dupDefs.reverse ∧
    List.find? (fun t => t.topic == "/dup") dupDefs.reverse = some ruleB :=
  ⟨by decide,
   C7_last_definition_wins "osd" dupDefs false false dupCallbacks (by decide) "/dup",
   by decide⟩

/-- Claim C8: on a connect event with reason code 0 and a nonempty
subscription list, the dispatcher logs the connect and requests subscription
to the full list; on a failed connect, or with an empty list, it only logs.
Every entry of the subscription list built at construction has
quality-of-service level 0. -/
theorem C8_connect_subscribes_full_list_qos0
    (nt : String) (defs : List MQTTTopic) (v d : Bool) (cb : MQTTCallbacks)
    (h : MQTTCallbacks.init nt defs v d = Except.ok cb) (rc : Int) :
    ((rc = 0 ∧ cb.sub_topic_list ≠ []) →
       (cb.on_connect rc).1 =
         [Event.log LogLevel.info ("connected. reason=" ++ intToStr rc),
          Event.subscribe cb.sub_topic_list])
    ∧ ((rc ≠ 0 ∨ cb.sub_topic_list = []) →
       (cb.on_connect rc).1 =
         [Event.log LogLevel.info ("connected. reason=" ++ intToStr rc)])
    ∧ cb.sub_topic_list.all (fun e => e.2 == 0) = true := by
  obtain ⟨-, hs, -⟩ := init_components nt defs v d cb h
  refine ⟨?_, ?_, ?_⟩
  · rintro ⟨hrc, hne⟩
    unfold MQTTCallbacks.on_connect
    rw [if_pos ⟨hrc.symm, List.length_pos.mpr hne⟩]
  · intro hbad
    unfold MQTTCallbacks.on_connect
    rw [if_neg ?_]
    rintro ⟨h0, hlen⟩
    rcases hbad with hrc | hemp
    · exact hrc h0.symm
    · rw [hemp] at hlen
      exact absurd hlen (by simp)
  · rw [hs]
    simp [List.all_eq_true]

theorem C8_witness :
    MQTTCallbacks.init "dunst" subDefs false false = Except.ok subCallbacks ∧
    ((0 : Int) = 0 ∧ subCallbacks.sub_topic_list ≠ []) ∧
    (subCallbacks.on_connect 0).1 =
      [Event.log LogLevel.info ("connected. reason=" ++ intToStr 0),
       Event.subscribe subCallbacks.sub_topic_list] ∧
    ((1 : Int) ≠ 0 ∨ subCallbacks.sub_topic_list = []) ∧
    (subCallbacks.on_connect 1).1 =
      [Event.log LogLevel.info ("connected. reason=" ++ intToStr 1)] ∧
    subCallbacks.sub_topic_list.all (fun e => e.2 == 0) = true :=
  ⟨by decide, ⟨rfl, by decide⟩,
   (C8_connect_subscribes_full_list_qos0 "dunst" subDefs false false subCallbacks
     (by decide) 0).1 ⟨rfl, by decide⟩,
   Or.inl (by decide),
   (C8_connect_subscribes_full_list_qos0 "dunst" subDefs false false subCallbacks
     (by decide) 1).2.1 (Or.inl (by decide)),
   (C8_connect_subscribes_full_list_qos0 "dunst" subDefs false false subCallbacks
     (by decide) 0).2.2⟩

/-- Claim C9: `on_message` reads but never mutates the dispatcher state, so
dispatching the same event twice (the second from the state left by the
first) produces two identical executions. -/
theorem C9_dispatch_is_stateless
    (cb : MQTTCallbacks) (w : World) (topic payload : String) :
    (cb.on_message w topic payload).2 = cb
    ∧ ((cb.on_message w topic payload).2).on_message w topic payload =
        cb.on_message w topic payload := by
  refine ⟨on_message_state cb w topic payload, ?_⟩
  rw [on_message_state cb w topic payload]

/-- Claim C10: a duplicated topic contributes one `(topic, 0)` entry per
definition to the subscription list, whose length therefore always equals the
number of definitions, even though lookup resolves the topic to the single
last-winning rule. -/
theorem C10_subscription_list_per_definition
    (nt : String) (defs : List MQTTTopic) (v d : Bool) (cb : MQTTCallbacks)
    (h : MQTTCallbacks.init nt defs v d = Except.ok cb) :
    cb.sub_topic_list = defs.map (fun t => (t.topic, 0))
    ∧ cb.sub_topic_list.length = defs.length := by
  obtain ⟨-, hs, -⟩ := init_components nt defs v d cb h
  exact ⟨hs, by rw [hs]; simp⟩

theorem C10_witness :
    MQTTCallbacks.init "osd" dupDefs false false = Except.ok dupCallbacks ∧
    dupCallbacks.sub_topic_list = [("/dup", 0), ("/dup", 0)] ∧
    dupCallbacks.sub_topic_list.length = 2 ∧
    dictLookup dupCallbacks.topics "/dup" = some ruleB :=
  ⟨by decide,
   (C10_subscription_list_per_definition "osd" dupDefs false false dupCallbacks
     (by decide)).1,
   (C10_subscription_list_per_definition "osd" dupDefs false false dupCallbacks
     (by decide)).2,
   by decide⟩
